import Mathlib

/-!
Shallow embedding of `pyethereum/peer.py` (class `Peer`, a per-connection
protocol engine) and proofs about its handshake, disconnect, dispatch and
transport-step behaviour.

Conventions of the embedding:
* Python byte strings are `Bytes := List Nat` (one `Nat` per byte).
* Python exceptions are modelled by `Except PyErr`; a handler that can raise
  returns `Except PyErr (Peer × List Event)` where the event list is the
  ordered trace of observable side effects (queue puts, signal emissions,
  log calls, sleeps, socket operations) the call performs.
* The external collaborators (`packeter`, `signals`, `utils`) are outside the
  repository snapshot; the few facts needed about them are modelled from the
  specification and documented as such on each definition.
-/

namespace PyEth

/-- A Python byte string: one `Nat` (0..255) per byte. -/
abbrev Bytes := List Nat

/-- Modelled from the spec: `utils.big_endian_to_int` — fields are
"big-endian-integer-decodable byte strings"; imported in `peer.py` as `idec`. -/
def idec (b : Bytes) : Nat :=
  b.foldl (fun acc x => acc * 256 + x) 0

/-- Python exceptions that the embedded code can raise. -/
inductive PyErr where
  | ioError (msg : String)
  | indexError
  | keyError (k : Nat)
  | typeError
deriving DecidableEq, Repr

/-- Python list indexing `l[i]`, raising `IndexError` out of range. -/
def pyIndex {α : Type} (l : List α) (i : Nat) : Except PyErr α :=
  match l.get? i with
  | some x => Except.ok x
  | none => Except.error PyErr.indexError

/-- Python `ord(b)` on a byte string: the single byte's value, `TypeError`
unless the string has length exactly one. -/
def pyOrd (b : Bytes) : Except PyErr Nat :=
  match b with
  | [x] => Except.ok x
  | _ => Except.error PyErr.typeError

/-- An outbound wire packet, identified by the `packeter.dump_*` call that
produced it.  The external codec's encodings are opaque to `peer.py`, so a
packet is represented symbolically by its command and, for Disconnect, the
reason field actually placed in the payload (`none` = no reason field). -/
inductive Packet where
  | hello
  | ping
  | pong
  | disconnect (reason : Option String)
  | getPeers
  | peers
  | getTransactions
  | transactions
  | blocks
  | getChain
  | notInChain
deriving DecidableEq, Repr

namespace packeter

/-- Modelled from the spec: `packeter.PROTOCOL_VERSION`, an injected
constant "known at construction time".  The concrete value is external
configuration; no theorem below depends on it. -/
def PROTOCOL_VERSION : Nat := 8

/-- Modelled from the spec: `packeter.NETWORK_ID`, an injected constant.
The concrete value is external configuration; no theorem depends on it. -/
def NETWORK_ID : Nat := 0

/-- Modelled from the spec: `packeter.dump_Hello()` encodes a Hello packet. -/
def dump_Hello : Packet := Packet.hello

/-- Modelled from the spec: `packeter.dump_Ping()`. -/
def dump_Ping : Packet := Packet.ping

/-- Modelled from the spec: `packeter.dump_Pong()`. -/
def dump_Pong : Packet := Packet.pong

/-- Modelled from the spec: `packeter.dump_Disconnect` builds a Disconnect
packet whose payload carries "zero or one field, an integer reason code";
called with no reason, the payload carries no reason field.  `peer.py`
always invokes it as `packeter.dump_Disconnect()` — with no argument. -/
def dump_Disconnect (reason : Option String) : Packet := Packet.disconnect reason

/-- Modelled from the spec: `packeter.dump_GetPeers()`. -/
def dump_GetPeers : Packet := Packet.getPeers

/-- Modelled from the spec: `packeter.dump_GetTransactions()`. -/
def dump_GetTransactions : Packet := Packet.getTransactions

/-- Modelled from the spec: the codec's "fixed reason-code table" of
disconnect reasons (the spec names these values; ids are the table order). -/
def disconnect_reasons : List String :=
  ["Disconnect requested", "Bad protocol",
   "Incompatible network protocols", "Wrong genesis block"]

/-- Modelled from the spec: `packeter.disconnect_reasons_map_by_id` — a
lookup in the fixed finite reason-code table; a missing id is a `KeyError`
at the Python call site. -/
def disconnect_reasons_map_by_id (n : Nat) : Option String :=
  disconnect_reasons.get? n

end packeter

/-- One observable side effect performed by a `Peer` method, in order. -/
inductive Event where
  | enqueued (pkt : Packet)
  | logWarn (msg : String)
  | logInfo (msg : String)
  | logDebug (msg : String)
  | sleep (ms : Nat)
  | sigPacketSending (pkt : Bytes)
  | sigPacketSent (pkt : Bytes)
  | sigDisconnectRequested
  | sigNewPeer (ip : String) (port : Nat) (pid : Bytes)
  | sigNewTransactions (tag : Nat)
  | sigNewBlocks (tag : Nat)
  | requestDataAsync (kind : String)
  | stopCalled
  | sockWrite (n : Nat)
  | sockRead (chunk : Bytes)
  | updateLastValid
deriving DecidableEq, Repr

/-- The handshake-visible state of one `Peer` object (`peer.py` `__init__`):
`node_id` starts as the empty string, both hello flags start false, and the
outbound `response_queue` starts empty. -/
structure Peer where
  node_id : Bytes
  hello_received : Bool
  hello_sent : Bool
  response_queue : List Packet
deriving DecidableEq, Repr

namespace Peer

/-- The freshly constructed state (`Peer.__init__`). -/
def init : Peer :=
  { node_id := [], hello_received := false, hello_sent := false,
    response_queue := [] }

/-- `Peer.send_packet`: put the encoded packet on the response queue. -/
def send_packet (p : Peer) (response : Packet) : Peer × List Event :=
  ({ p with response_queue := p.response_queue ++ [response] },
   [Event.enqueued response])

/-- `Peer.send_Hello`: enqueue a Hello and set `hello_sent`. -/
def send_Hello (p : Peer) : Peer × List Event :=
  let r := send_packet p packeter.dump_Hello
  ({ r.1 with hello_sent := true }, r.2)

/-- `Peer.send_Disconnect(reason=None)`: enqueue `packeter.dump_Disconnect()`
— note the source does NOT forward its `reason` argument to the dump call —
then `time.sleep(2)`, then emit the `disconnect_requested` signal. -/
def send_Disconnect (p : Peer) (_reason : Option String) : Peer × List Event :=
  let r := send_packet p (packeter.dump_Disconnect none)
  (r.1, r.2 ++ [Event.sleep 2000, Event.sigDisconnectRequested])

/-- `Peer.send_Ping` (the `last_pinged` timestamp is advisory, not modelled). -/
def send_Ping (p : Peer) : Peer × List Event :=
  send_packet p packeter.dump_Ping

/-- `Peer.send_Pong`. -/
def send_Pong (p : Peer) : Peer × List Event :=
  send_packet p packeter.dump_Pong

/-- `Peer.send_GetTransactions`: log, then enqueue. -/
def send_GetTransactions (p : Peer) : Peer × List Event :=
  let r := send_packet p packeter.dump_GetTransactions
  (r.1, Event.logInfo "asking for transactions" :: r.2)

/-- `Peer.send_GetPeers`. -/
def send_GetPeers (p : Peer) : Peer × List Event :=
  send_packet p packeter.dump_GetPeers

/-- `Peer._recv_Hello`: validate `data[0]` against the protocol version and
`data[1]` against the network id (each mismatch answers with
`send_Disconnect` and returns); on success set `hello_received`, adopt
`data[5]` as `node_id` when the payload has exactly 6 fields, and reply with
a Hello when `hello_sent` is still false. -/
def _recv_Hello (p : Peer) (data : List Bytes) :
    Except PyErr (Peer × List Event) :=
  match pyIndex data 0 with
  | Except.error e => Except.error e
  | Except.ok d0 =>
    if idec d0 ≠ packeter.PROTOCOL_VERSION then
      Except.ok (send_Disconnect p (some "Incompatible network protocols"))
    else
      match pyIndex data 1 with
      | Except.error e => Except.error e
      | Except.ok d1 =>
        if idec d1 ≠ packeter.NETWORK_ID then
          Except.ok (send_Disconnect p (some "Wrong genesis block"))
        else
          let p1 := { p with hello_received := true }
          let p2 := if data.length = 6 then
                      { p1 with node_id := data.getD 5 [] }
                    else p1
          if p2.hello_sent then Except.ok (p2, [])
          else Except.ok (send_Hello p2)

/-- `Peer._recv_Ping`: reply with Pong. -/
def _recv_Ping (p : Peer) : Peer × List Event :=
  send_Pong p

/-- `Peer._recv_Pong`: triggers `send_GetTransactions` (legacy behaviour). -/
def _recv_Pong (p : Peer) : Peer × List Event :=
  send_GetTransactions p

/-- `Peer._recv_Disconnect`: when a reason field is present, resolve it
through the fixed reason table (a missing id raises `KeyError`, aborting the
handler) and log it; then emit `disconnect_requested`. -/
def _recv_Disconnect (p : Peer) (data : List Bytes) :
    Except PyErr (Peer × List Event) :=
  match data with
  | [] => Except.ok (p, [Event.sigDisconnectRequested])
  | d0 :: _ =>
    match packeter.disconnect_reasons_map_by_id (idec d0) with
    | none => Except.error (PyErr.keyError (idec d0))
    | some reason =>
        Except.ok (p, [Event.logInfo reason, Event.sigDisconnectRequested])

/-- `b or '\x00'` applied to one ip byte string: an empty byte string is
replaced by a NUL byte. -/
def ip_byte (b : Bytes) : Bytes := if b = [] then [0] else b

/-- The generator `(ord(b or NUL) for b in ip)` of `_recv_Peers`: `ord`
each ip byte string (empty byte as NUL), propagating the first exception. -/
def ordMap : List Bytes → Except PyErr (List Nat)
  | [] => Except.ok []
  | b :: rest =>
    match pyOrd (ip_byte b) with
    | Except.error e => Except.error e
    | Except.ok v =>
      match ordMap rest with
      | Except.error e => Except.error e
      | Except.ok vs => Except.ok (v :: vs)

/-- `Peer._recv_Peers`: for each `(ip, port, pid)` entry render the four ip
byte strings as a dotted-quad (`ord` of each, empty byte as zero), decode the
port big-endian, log, and emit one `new_peer_received` signal per entry. -/
def _recv_Peers (p : Peer) (data : List (List Bytes × Bytes × Bytes)) :
    Except PyErr (Peer × List Event) :=
  match data with
  | [] => Except.ok (p, [])
  | (ip, port, pid) :: rest =>
    match ordMap ip with
    | Except.error e => Except.error e
    | Except.ok vals =>
      let ipStr := String.intercalate "." (vals.map (fun v => toString v))
      let portN := idec port
      match _recv_Peers p rest with
      | Except.error e => Except.error e
      | Except.ok (p', evs) =>
          Except.ok (p', Event.logDebug "received peer address"
            :: Event.sigNewPeer ipStr portN pid :: evs)

/-- `Peer._recv_GetPeers`: issue an async data request for known peers. -/
def _recv_GetPeers (p : Peer) : Peer × List Event :=
  (p, [Event.requestDataAsync "peers"])

/-- `Peer._recv_GetTransactions`: log, then async data request. -/
def _recv_GetTransactions (p : Peer) : Peer × List Event :=
  (p, [Event.logInfo "asking for transactions",
       Event.requestDataAsync "transactions"])

/-- `Peer._recv_Transactions`: log, then publish the payload. -/
def _recv_Transactions (p : Peer) (tag : Nat) : Peer × List Event :=
  (p, [Event.logInfo "received transactions", Event.sigNewTransactions tag])

/-- `Peer._recv_Blocks`: publish the payload. -/
def _recv_Blocks (p : Peer) (tag : Nat) : Peer × List Event :=
  (p, [Event.sigNewBlocks tag])

/-- `Peer._recv_GetChain`: async data request for a block range. -/
def _recv_GetChain (p : Peer) : Peer × List Event :=
  (p, [Event.requestDataAsync "blocks"])

/-- `Peer._recv_NotInChain`: no-op. -/
def _recv_NotInChain (p : Peer) : Peer × List Event :=
  (p, [])

end Peer

/-- A successfully decoded inbound message, as `packeter.load_cmd` returns
it: the command name together with its payload, typed the way the matching
`_recv_*` handler consumes it; `unknownCmd` is a decodable command name with
no handler (`hasattr` miss). -/
inductive InMsg where
  | Hello (data : List Bytes)
  | Ping
  | Pong
  | Disconnect (data : List Bytes)
  | GetPeers
  | Peers (data : List (List Bytes × Bytes × Bytes))
  | GetTransactions
  | Transactions (tag : Nat)
  | Blocks (tag : Nat)
  | GetChain
  | NotInChain
  | unknownCmd (name : String)
deriving DecidableEq, Repr

namespace Peer

/-- The `getattr(self, "_recv_" + cmd)(data)` call: route a decoded message
to its handler. -/
def dispatch (p : Peer) (msg : InMsg) : Except PyErr (Peer × List Event) :=
  match msg with
  | InMsg.Hello data => _recv_Hello p data
  | InMsg.Ping => Except.ok (_recv_Ping p)
  | InMsg.Pong => Except.ok (_recv_Pong p)
  | InMsg.Disconnect data => _recv_Disconnect p data
  | InMsg.GetPeers => Except.ok (_recv_GetPeers p)
  | InMsg.Peers data => _recv_Peers p data
  | InMsg.GetTransactions => Except.ok (_recv_GetTransactions p)
  | InMsg.Transactions tag => Except.ok (_recv_Transactions p tag)
  | InMsg.Blocks tag => Except.ok (_recv_Blocks p tag)
  | InMsg.GetChain => Except.ok (_recv_GetChain p)
  | InMsg.NotInChain => Except.ok (_recv_NotInChain p)
  | InMsg.unknownCmd name => Except.ok (p, [Event.logWarn name])

/-- `Peer._recv_packet`, parameterised by the external codec's result on the
buffer: a `load_cmd` failure is caught, logged and answered with
`send_Disconnect` with the reason "Bad protocol"; on success the liveness timestamp
is refreshed, an unknown command is logged and ignored, and a known command
is dispatched — with nothing catching what the handler raises. -/
def _recv_packet (p : Peer) (loadResult : Except String InMsg) :
    Except PyErr (Peer × List Event) :=
  match loadResult with
  | Except.error e =>
      let r := send_Disconnect p (some "Bad protocol")
      Except.ok (r.1, Event.logWarn e :: r.2)
  | Except.ok (InMsg.unknownCmd name) =>
      Except.ok (p, [Event.updateLastValid, Event.logWarn name])
  | Except.ok msg =>
      match dispatch p msg with
      | Except.error e => Except.error e
      | Except.ok (p', evs) =>
          Except.ok (p', Event.updateLastValid :: evs)

/-- `Peer.connection()`: raises `IOError` once the peer is stopped,
otherwise hands back the socket. -/
def connection (stopped : Bool) : Except PyErr Unit :=
  if stopped then Except.error (PyErr.ioError "Connection was stopped")
  else Except.ok ()

/-- The result of one `socket.send` call made by the environment: the number
of bytes the socket accepted, or an `IOError`. -/
inductive SockRes where
  | ok (n : Nat)
  | err (msg : String)
deriving DecidableEq, Repr

/-- The result of one `socket.recv(2048)` call: a chunk (possibly empty,
meaning the peer closed), or an `IOError` (also raised by a non-blocking
socket with no data available). -/
inductive RecvRes where
  | chunk (b : Bytes)
  | err
deriving DecidableEq, Repr

/-- The `except IOError` path of one send-loop iteration: `packet_sending`
was already emitted for the iteration; the failure is logged, `stop()` is
called and the loop breaks, abandoning the unsent remainder. -/
def sendFailure (packet : Bytes) : Bool × Bytes × List Event :=
  (true, packet, [Event.sigPacketSending packet,
    Event.logDebug "send packet failed", Event.stopCalled])

/-- The `while packet:` loop of `Peer._process_send`: each iteration emits
`packet_sending`, then accesses the socket through `connection()` and sends;
an `IOError` (from the accessor or the send) is logged, calls `stop()` and
breaks, abandoning the remainder; a successful send keeps only the unsent
remainder and emits `packet_sent` with it.  `sends` lists the socket's
response to each successive send call; an exhausted environment behaves as a
failing call (so the accessor/failure branches coincide there).  Returns
(stopped-after, unsent remainder, event trace). -/
def sendLoop (stopped : Bool) : Bytes → List SockRes → Bool × Bytes × List Event
  | packet, [] =>
    if packet.isEmpty then (stopped, packet, []) else sendFailure packet
  | packet, SockRes.err _ :: _ =>
    if packet.isEmpty then (stopped, packet, []) else sendFailure packet
  | packet, SockRes.ok n :: rest =>
    if packet.isEmpty then (stopped, packet, [])
    else
      match connection stopped with
      | Except.error _ => sendFailure packet
      | Except.ok _ =>
        let r := sendLoop stopped (packet.drop n) rest
        (r.1, r.2.1, Event.sigPacketSending packet :: Event.sockWrite n
          :: Event.sigPacketSent (packet.drop n) :: r.2.2)

/-- `Peer._process_send`: pop one packet (or none) from the response queue,
run the send loop on it, and return (result = length of the unsent
remainder, stopped-after, remaining queue, event trace).  The transport
layer sees the queue as the raw byte strings the handlers enqueued. -/
def _process_send (stopped : Bool) (queue : List Bytes)
    (sends : List SockRes) : Nat × Bool × List Bytes × List Event :=
  match queue with
  | [] => (0, stopped, [], [])
  | packet :: rest =>
      let r := sendLoop stopped packet sends
      (r.2.1.length, r.1, rest, r.2.2)

/-- The accumulation loop of `Peer._process_recv`: read chunks through
`connection()` until an `IOError` (swallowed: the chunk becomes empty) or an
empty chunk breaks the loop, concatenating into one buffer.  Returns the
buffer and the trace of successful socket reads — note the error paths emit
no event at all. -/
def recvLoop (stopped : Bool) : List RecvRes → Bytes × List Event
  | [] => ([], [])
  | r :: rs =>
    match connection stopped with
    | Except.error _ => ([], [])
    | Except.ok _ =>
      match r with
      | RecvRes.err => ([], [])
      | RecvRes.chunk [] => ([], [])
      | RecvRes.chunk b =>
          let q := recvLoop stopped rs
          (b ++ q.1, Event.sockRead b :: q.2)

/-- `Peer._process_recv`: accumulate available bytes; if any were received,
feed the whole buffer to `_recv_packet` (through the codec `load_cmd`);
return the number of bytes received.  A handler exception propagates. -/
def _process_recv (load_cmd : Bytes → Except String InMsg) (p : Peer)
    (stopped : Bool) (recvs : List RecvRes) :
    Except PyErr (Peer × Nat × List Event) :=
  let r := recvLoop stopped recvs
  if r.1.isEmpty then Except.ok (p, 0, r.2)
  else
    match _recv_packet p (load_cmd r.1) with
    | Except.error e => Except.error e
    | Except.ok (p', evs) => Except.ok (p', r.1.length, r.2 ++ evs)

end Peer

/-- Number of events in a trace satisfying a predicate. -/
def countEv (f : Event → Bool) (evs : List Event) : Nat :=
  (evs.filter f).length

/-- Is this event the enqueueing of a Disconnect packet (any reason)? -/
def Event.isDisconnectEnq : Event → Bool
  | Event.enqueued (Packet.disconnect _) => true
  | _ => false

/-- Is this event the enqueueing of a Hello packet? -/
def Event.isHelloEnq : Event → Bool
  | Event.enqueued Packet.hello => true
  | _ => false

/-- Is this event a call to `stop()`? -/
def Event.isStop : Event → Bool
  | Event.stopCalled => true
  | _ => false

/-- Is this event a log call (any level)? -/
def Event.isLog : Event → Bool
  | Event.logWarn _ => true
  | Event.logInfo _ => true
  | Event.logDebug _ => true
  | _ => false

/-- Is this event a `packet_sent` signal emission? -/
def Event.isSentSig : Event → Bool
  | Event.sigPacketSent _ => true
  | _ => false

/-- Is this event an actual write on the socket? -/
def Event.isSockWrite : Event → Bool
  | Event.sockWrite _ => true
  | _ => false

/-- Is this event an actual read on the socket? -/
def Event.isSockRead : Event → Bool
  | Event.sockRead _ => true
  | _ => false

/-- Is this event a `new_peer_received` signal emission? -/
def Event.isNewPeerSig : Event → Bool
  | Event.sigNewPeer _ _ _ => true
  | _ => false

/-- Characterisation of `_recv_Hello` on a payload that passes both
handshake checks (protocol version and network id both match): the call
succeeds, `hello_received` is set, `node_id` becomes field 5 exactly when
the payload has 6 fields and is otherwise untouched, and a Hello reply is
enqueued exactly when `hello_sent` was still false. -/
theorem recv_Hello_valid (p : Peer) (d0 d1 : Bytes) (rest : List Bytes)
    (h0 : idec d0 = packeter.PROTOCOL_VERSION)
    (h1 : idec d1 = packeter.NETWORK_ID) :
    Peer._recv_Hello p (d0 :: d1 :: rest) =
      Except.ok
        ({ node_id := if rest.length = 4 then rest.getD 3 [] else p.node_id,
           hello_received := true,
           hello_sent := true,
           response_queue := p.response_queue ++
             (if p.hello_sent then [] else [Packet.hello]) },
         if p.hello_sent then [] else [Event.enqueued Packet.hello]) := by
  by_cases hl : rest.length = 4 <;> cases hs : p.hello_sent <;>
    simp [Peer._recv_Hello, pyIndex, h0, h1, hl, hs, Peer.send_Hello,
      Peer.send_packet, packeter.dump_Hello, List.getD]

/-- C1 (code bug): a Hello with a wrong protocol version, and likewise one
with a wrong network id, each make the handler enqueue exactly one
Disconnect and stop processing with `hello_received` still false — but the
enqueued packet is `packeter.dump_Disconnect()` with the reason argument NOT
forwarded, so it carries no reason field: it is not a packet carrying
"Incompatible network protocols" (resp. "Wrong genesis block"), and both
mismatch kinds enqueue the identical packet. -/
theorem C1_reason_not_forwarded :
    Peer._recv_Hello Peer.init [[9]] =
      Except.ok ({ Peer.init with response_queue := [Packet.disconnect none] },
        [Event.enqueued (Packet.disconnect none), Event.sleep 2000,
         Event.sigDisconnectRequested]) ∧
    Peer._recv_Hello Peer.init [[8], [1]] =
      Except.ok ({ Peer.init with response_queue := [Packet.disconnect none] },
        [Event.enqueued (Packet.disconnect none), Event.sleep 2000,
         Event.sigDisconnectRequested]) ∧
    Packet.disconnect none ≠
      Packet.disconnect (some "Incompatible network protocols") ∧
    Packet.disconnect none ≠ Packet.disconnect (some "Wrong genesis block") ∧
    Peer.init.hello_received = false :=
  ⟨rfl, rfl, by decide, by decide, rfl⟩

/-- C5: a Hello whose protocol version and network id both match sets
`hello_received`; if `hello_sent` was false exactly one Hello reply is
enqueued and `hello_sent` becomes true; if `hello_sent` was already true no
Hello is enqueued and the queue is untouched. -/
theorem C5_hello_match_reply (p : Peer) (d0 d1 : Bytes) (rest : List Bytes)
    (h0 : idec d0 = packeter.PROTOCOL_VERSION)
    (h1 : idec d1 = packeter.NETWORK_ID) :
    ∃ p' evs, Peer._recv_Hello p (d0 :: d1 :: rest) = Except.ok (p', evs) ∧
      p'.hello_received = true ∧
      (p.hello_sent = false →
        countEv Event.isHelloEnq evs = 1 ∧ p'.hello_sent = true ∧
        p'.response_queue = p.response_queue ++ [Packet.hello]) ∧
      (p.hello_sent = true →
        countEv Event.isHelloEnq evs = 0 ∧
        p'.response_queue = p.response_queue) := by
  refine ⟨_, _, recv_Hello_valid p d0 d1 rest h0 h1, rfl, ?_, ?_⟩ <;>
    intro hs <;> simp [hs, countEv, Event.isHelloEnq, List.filter]

/-- C5 witness: the initial peer receiving Hello `[[8],[0]]` (matching
version 8 and network id 0) with `hello_sent` still false. -/
theorem C5_hello_match_reply_witness :
    idec [8] = packeter.PROTOCOL_VERSION ∧ idec [0] = packeter.NETWORK_ID ∧
    (∃ p' evs, Peer._recv_Hello Peer.init [[8], [0]] = Except.ok (p', evs) ∧
      p'.hello_received = true ∧
      (Peer.init.hello_sent = false →
        countEv Event.isHelloEnq evs = 1 ∧ p'.hello_sent = true ∧
        p'.response_queue = Peer.init.response_queue ++ [Packet.hello]) ∧
      (Peer.init.hello_sent = true →
        countEv Event.isHelloEnq evs = 0 ∧
        p'.response_queue = Peer.init.response_queue)) :=
  ⟨by decide, by decide,
   C5_hello_match_reply Peer.init [8] [0] [] (by decide) (by decide)⟩

/-- C3 counterexample: a peer whose node id was already set to `[1]` by an
earlier handshake receives a later valid 6-field Hello whose field 5 is
`[2]`; the handler overwrites the node id with `[2]`, so "once set it is
never overwritten by any later Hello" is false. -/
theorem C3_counterexample :
    Peer._recv_Hello
        { node_id := [1], hello_received := true, hello_sent := true,
          response_queue := [] }
        [[8], [0], [], [], [], [2]] =
      Except.ok
        ({ node_id := [2], hello_received := true, hello_sent := true,
           response_queue := [] }, []) ∧
    ([2] : Bytes) ≠ ([1] : Bytes) :=
  ⟨rfl, by decide⟩

/-- C3 (amended): after a successfully validated Hello, the node id equals
field index 5 of the payload exactly when the payload has 6 fields and is
left unchanged otherwise — but it is overwritten (not preserved) by any
later valid 6-field Hello. -/
theorem C3_node_id_adoption (p : Peer) (d0 d1 : Bytes) (rest : List Bytes)
    (h0 : idec d0 = packeter.PROTOCOL_VERSION)
    (h1 : idec d1 = packeter.NETWORK_ID) :
    ∃ p' evs, Peer._recv_Hello p (d0 :: d1 :: rest) = Except.ok (p', evs) ∧
      ((d0 :: d1 :: rest).length = 6 →
        p'.node_id = (d0 :: d1 :: rest).getD 5 []) ∧
      ((d0 :: d1 :: rest).length ≠ 6 → p'.node_id = p.node_id) := by
  refine ⟨_, _, recv_Hello_valid p d0 d1 rest h0 h1, ?_, ?_⟩ <;>
    intro hl
  · have hr : rest.length = 4 := by simp at hl; omega
    simp [hr]
  · have hr : ¬ rest.length = 4 := by simp at hl ⊢; omega
    simp [hr]

/-- C3 witness: a validated 6-field Hello adopts field 5 as node id, and a
validated 2-field Hello leaves it unchanged (instantiated at the 6-field
case). -/
theorem C3_node_id_adoption_witness :
    idec [8] = packeter.PROTOCOL_VERSION ∧ idec [0] = packeter.NETWORK_ID ∧
    (∃ p' evs,
      Peer._recv_Hello Peer.init [[8], [0], [], [], [], [7]] =
        Except.ok (p', evs) ∧
      (([[8], [0], [], [], [], [7]] : List Bytes).length = 6 →
        p'.node_id = ([[8], [0], [], [], [], [7]] : List Bytes).getD 5 []) ∧
      (([[8], [0], [], [], [], [7]] : List Bytes).length ≠ 6 →
        p'.node_id = Peer.init.node_id)) :=
  ⟨by decide, by decide,
   C3_node_id_adoption Peer.init [8] [0] [[], [], [], [7]]
     (by decide) (by decide)⟩

/-- C6 (code bug): for every buffer the codec fails to decode, the failure
is logged and exactly one Disconnect is enqueued, no exception escapes the
dispatch boundary and `stop()` is not called — but, as in C1, the enqueued
packet is `packeter.dump_Disconnect()` with no reason forwarded, so it does
not carry the reason "Bad protocol". -/
theorem C6_bad_protocol_path (p : Peer) (e : String) :
    Peer._recv_packet p (Except.error e) =
      Except.ok
        ({ p with
            response_queue := p.response_queue ++ [Packet.disconnect none] },
         [Event.logWarn e, Event.enqueued (Packet.disconnect none),
          Event.sleep 2000, Event.sigDisconnectRequested]) ∧
    Packet.disconnect none ≠ Packet.disconnect (some "Bad protocol") :=
  ⟨rfl, by decide⟩

/-- C7: `send_Disconnect` first enqueues the Disconnect packet, then sleeps
about 2 seconds, and only then emits the disconnect-requested signal — the
complete effect trace, in order, for every starting state and reason. -/
theorem C7_disconnect_ordering (p : Peer) (reason : Option String) :
    Peer.send_Disconnect p reason =
      ({ p with response_queue := p.response_queue ++ [Packet.disconnect none] },
       [Event.enqueued (Packet.disconnect none), Event.sleep 2000,
        Event.sigDisconnectRequested]) := rfl

/-- The send loop on an already-empty packet does nothing, whatever the
socket environment holds. -/
theorem sendLoop_nil (st : Bool) (sends : List Peer.SockRes) :
    Peer.sendLoop st [] sends = (st, [], []) := by
  cases sends with
  | nil => rfl
  | cons s rest => cases s <;> rfl

/-- In every send-loop trace, the number of `packet_sent` emissions equals
the number of successful socket writes: the completion signal fires once per
successful write, not once per packet. -/
theorem sendLoop_sent_eq_writes (st : Bool) (sends : List Peer.SockRes) :
    ∀ packet, countEv Event.isSentSig (Peer.sendLoop st packet sends).2.2 =
      countEv Event.isSockWrite (Peer.sendLoop st packet sends).2.2 := by
  induction sends with
  | nil =>
    intro packet
    by_cases hp : packet.isEmpty <;>
      simp [Peer.sendLoop, hp, Peer.sendFailure, countEv,
        Event.isSentSig, Event.isSockWrite]
  | cons s rest ih =>
    intro packet
    cases s with
    | err m =>
      by_cases hp : packet.isEmpty <;>
        simp [Peer.sendLoop, hp, Peer.sendFailure, countEv,
          Event.isSentSig, Event.isSockWrite]
    | ok n =>
      by_cases hp : packet.isEmpty
      · simp [Peer.sendLoop, hp, countEv]
      · cases st
        · have h := ih (packet.drop n)
          simp [Peer.sendLoop, hp, Peer.connection, countEv,
            Event.isSentSig, Event.isSockWrite] at h ⊢
          omega
        · simp [Peer.sendLoop, hp, Peer.connection, Peer.sendFailure,
            countEv, Event.isSentSig, Event.isSockWrite]

/-- C4 counterexample: a two-byte packet flushed by two partial writes is
fully sent (the step returns 0 unsent bytes) yet the send-completed signal
`packet_sent` is emitted twice, not "exactly once after the packet is fully
flushed". -/
theorem C4_counterexample :
    Peer._process_send false [[0, 1]] [Peer.SockRes.ok 1, Peer.SockRes.ok 1] =
      (0, false, [],
        [Event.sigPacketSending [0, 1], Event.sockWrite 1,
         Event.sigPacketSent [1], Event.sigPacketSending [1],
         Event.sockWrite 1, Event.sigPacketSent []]) ∧
    countEv Event.isSentSig
        [Event.sigPacketSending [0, 1], Event.sockWrite 1,
         Event.sigPacketSent [1], Event.sigPacketSending [1],
         Event.sockWrite 1, Event.sigPacketSent []] = 2 :=
  ⟨rfl, rfl⟩

/-- C4 (amended): one send step pops at most one packet (none when the
queue is empty, returning 0); `packet_sending` is notified before each
write; `packet_sent` is notified once per successful write — hence exactly
once, after the full flush, when the socket takes the whole packet in one
write; a write failure logs, calls `stop()` and abandons the remainder; the
return value is the number of bytes left unsent. -/
theorem C4_send_step (st : Bool) (q : List Bytes) (s : List Peer.SockRes)
    (b n : Nat) (bs : Bytes) (m : String) (rest : List Peer.SockRes)
    (hn : (b :: bs).length ≤ n) :
    Peer._process_send st [] s = (0, st, [], []) ∧
    Peer._process_send false ((b :: bs) :: q) (Peer.SockRes.ok n :: rest) =
      (0, false, q,
        [Event.sigPacketSending (b :: bs), Event.sockWrite n,
         Event.sigPacketSent []]) ∧
    Peer._process_send false ((b :: bs) :: q) (Peer.SockRes.err m :: rest) =
      ((b :: bs).length, true, q,
        [Event.sigPacketSending (b :: bs),
         Event.logDebug "send packet failed", Event.stopCalled]) ∧
    (∀ st' packet sends,
      countEv Event.isSentSig (Peer.sendLoop st' packet sends).2.2 =
        countEv Event.isSockWrite (Peer.sendLoop st' packet sends).2.2) := by
  refine ⟨rfl, ?_, rfl, fun st' packet sends =>
    sendLoop_sent_eq_writes st' sends packet⟩
  have hd : (b :: bs).drop n = [] := List.drop_eq_nil_of_le hn
  simp [Peer._process_send, Peer.sendLoop, Peer.connection, hd, sendLoop_nil]

/-- C4 witness: a one-byte packet accepted whole by a single write. -/
theorem C4_send_step_witness :
    (([0] : Bytes).length ≤ 1) ∧
    (Peer._process_send true [] [] = (0, true, [], []) ∧
     Peer._process_send false [[0]] [Peer.SockRes.ok 1] =
       (0, false, [],
         [Event.sigPacketSending [0], Event.sockWrite 1,
          Event.sigPacketSent []]) ∧
     Peer._process_send false [[0]] [Peer.SockRes.err "boom"] =
       (([0] : Bytes).length, true, [],
         [Event.sigPacketSending [0],
          Event.logDebug "send packet failed", Event.stopCalled]) ∧
     (∀ st' packet sends,
       countEv Event.isSentSig (Peer.sendLoop st' packet sends).2.2 =
         countEv Event.isSockWrite (Peer.sendLoop st' packet sends).2.2)) :=
  ⟨by decide, C4_send_step true [] [] 0 1 [] "boom" [] (by decide)⟩

/-- C2 counterexample: a socket read failure in `_process_recv` is NOT
fatal — the step ends with an empty trace (so `stop()` was not called and
nothing was logged), an unchanged peer state and 0 bytes read. -/
theorem C2_counterexample :
    Peer._process_recv (fun _ => Except.error "undecodable") Peer.init false
        [Peer.RecvRes.err] = Except.ok (Peer.init, 0, []) := rfl

/-- C2 (amended): a socket WRITE failure is fatal — it is logged, calls
`stop()` exactly once, abandons the unsent remainder and is not retried —
while a socket READ failure is swallowed: it merely ends the receive
accumulation with an empty chunk, without any `stop()` call or log. -/
theorem C2_transport_failures (b : Nat) (bs : Bytes) (q : List Bytes)
    (m : String) (rest : List Peer.SockRes) (p : Peer)
    (f : Bytes → Except String InMsg) (rs : List Peer.RecvRes) :
    Peer._process_send false ((b :: bs) :: q) (Peer.SockRes.err m :: rest) =
      ((b :: bs).length, true, q,
        [Event.sigPacketSending (b :: bs),
         Event.logDebug "send packet failed", Event.stopCalled]) ∧
    Peer._process_recv f p false (Peer.RecvRes.err :: rs) =
      Except.ok (p, 0, []) :=
  ⟨rfl, rfl⟩

/-- C10: once stopped, `connection()` raises `IOError`; a send step on a
stopped peer performs no socket write — the access is treated as a
transport failure (logged, `stop()` re-invoked, packet abandoned) — and a
receive step on a stopped peer performs no socket read and returns 0. -/
theorem C10_stopped_connection (b : Nat) (bs : Bytes) (q : List Bytes)
    (s : List Peer.SockRes) (p : Peer) (f : Bytes → Except String InMsg)
    (rs : List Peer.RecvRes) :
    Peer.connection true =
      Except.error (PyErr.ioError "Connection was stopped") ∧
    Peer._process_send true ((b :: bs) :: q) s =
      ((b :: bs).length, true, q,
        [Event.sigPacketSending (b :: bs),
         Event.logDebug "send packet failed", Event.stopCalled]) ∧
    Peer._process_send true [] s = (0, true, [], []) ∧
    Peer._process_recv f p true rs = Except.ok (p, 0, []) := by
  refine ⟨rfl, ?_, rfl, ?_⟩
  · cases s with
    | nil => rfl
    | cons hd tl => cases hd <;> rfl
  · cases rs with
    | nil => rfl
    | cons hd tl => rfl

/-- C8 counterexample: a decodable Disconnect packet whose reason code (999)
is outside the fixed reason table makes the handler raise `KeyError`, and
the exception propagates out of the dispatch boundary. -/
theorem C8_counterexample :
    Peer._recv_packet Peer.init (Except.ok (InMsg.Disconnect [[3, 231]])) =
      Except.error (PyErr.keyError 999) := rfl

/-- C8 (amended): a decode failure is caught and answered with a Disconnect
enqueue, an unknown command is logged and ignored, and a transport write
failure logs and stops — but dispatching a decodable packet to its handler
CAN raise (a Disconnect payload with an out-of-table reason code raises
`KeyError`), and that exception propagates to the caller, through the
receive step as well. -/
theorem C8_propagation (p : Peer) (e name : String) (b : Nat) (bs : Bytes)
    (q : List Bytes) (m : String) (rest : List Peer.SockRes) :
    Peer._recv_packet p (Except.error e) =
      Except.ok
        ({ p with
            response_queue := p.response_queue ++ [Packet.disconnect none] },
         [Event.logWarn e, Event.enqueued (Packet.disconnect none),
          Event.sleep 2000, Event.sigDisconnectRequested]) ∧
    Peer._recv_packet p (Except.ok (InMsg.unknownCmd name)) =
      Except.ok (p, [Event.updateLastValid, Event.logWarn name]) ∧
    Peer._process_send false ((b :: bs) :: q) (Peer.SockRes.err m :: rest) =
      ((b :: bs).length, true, q,
        [Event.sigPacketSending (b :: bs),
         Event.logDebug "send packet failed", Event.stopCalled]) ∧
    Peer._recv_packet p (Except.ok (InMsg.Disconnect [[3, 231]])) =
      Except.error (PyErr.keyError 999) ∧
    Peer._process_recv (fun _ => Except.ok (InMsg.Disconnect [[3, 231]])) p
        false [Peer.RecvRes.chunk [1]] =
      Except.error (PyErr.keyError 999) :=
  ⟨rfl, rfl, rfl, rfl, rfl⟩

/-- On an ip byte string of length at most one, `ord(b or NUL)` succeeds and
returns the byte (zero for the empty string). -/
theorem pyOrd_ip_byte (b : Bytes) (h : b.length ≤ 1) :
    pyOrd (Peer.ip_byte b) = Except.ok ((Peer.ip_byte b).headD 0) := by
  rcases b with _ | ⟨x, _ | ⟨y, t⟩⟩
  · rfl
  · rfl
  · simp at h

/-- On a list of ip byte strings each of length at most one, the `ord` map
of `_recv_Peers` succeeds. -/
theorem ordMap_ok : ∀ (ip : List Bytes), (∀ b ∈ ip, b.length ≤ 1) →
    Peer.ordMap ip = Except.ok (ip.map (fun b => (Peer.ip_byte b).headD 0))
  | [], _ => rfl
  | b :: rest, h => by
    simp only [Peer.ordMap, pyOrd_ip_byte b (h b (List.mem_cons_self b rest)),
      ordMap_ok rest (fun x hx => h x (List.mem_cons_of_mem b hx)),
      List.map_cons]

/-- The event sequence `_recv_Peers` produces on a well-formed Peers
payload: per entry, in order, one debug log and one `new_peer_received`
signal carrying the dotted-quad rendering of the ip bytes (empty byte as
zero), the big-endian port and the node id. -/
def peersEvents : List (List Bytes × Bytes × Bytes) → List Event
  | [] => []
  | (ip, port, pid) :: rest =>
      Event.logDebug "received peer address"
        :: Event.sigNewPeer
             (String.intercalate "."
               ((ip.map (fun b => (Peer.ip_byte b).headD 0)).map
                 (fun v => toString v)))
             (idec port) pid
        :: peersEvents rest

/-- On a well-formed payload, `_recv_Peers` succeeds with unchanged state
and emits exactly the `peersEvents` trace. -/
theorem recv_Peers_ok (p : Peer) :
    ∀ (data : List (List Bytes × Bytes × Bytes)),
      (∀ e ∈ data, ∀ b ∈ e.1, b.length ≤ 1) →
      Peer._recv_Peers p data = Except.ok (p, peersEvents data)
  | [], _ => rfl
  | (ip, port, pid) :: rest, h => by
      have hip : ∀ b ∈ ip, b.length ≤ 1 := by
        intro b hb
        exact h (ip, port, pid) (List.mem_cons_self _ _) b hb
      have hrest : ∀ x ∈ rest, ∀ b ∈ x.1, b.length ≤ 1 :=
        fun x hx => h x (List.mem_cons_of_mem _ hx)
      have hr := recv_Peers_ok p rest hrest
      simp only [Peer._recv_Peers, ordMap_ok ip hip, hr, peersEvents]

/-- Each Peers entry yields exactly one `new_peer_received` signal. -/
theorem peersEvents_count :
    ∀ data, countEv Event.isNewPeerSig (peersEvents data) = data.length
  | [] => rfl
  | (ip, port, pid) :: rest => by
      simp [peersEvents, countEv, Event.isNewPeerSig, List.filter]
      have h := peersEvents_count rest
      simp [countEv] at h
      omega

/-- C9: every entry of a received Peers payload is republished individually
as exactly one new-peer signal whose ip is the dotted-quad rendering of the
four ip bytes (an empty byte counting as zero) and whose port is the
big-endian integer decoding of the port bytes; in particular the single
entry (bytes [127,0,0,1], bytes of 30303, "abc") yields exactly one signal
with value ("127.0.0.1", 30303, "abc"). -/
theorem C9_peers_republish (p : Peer)
    (data : List (List Bytes × Bytes × Bytes))
    (hwf : ∀ e ∈ data, ∀ b ∈ e.1, b.length ≤ 1) :
    Peer._recv_Peers p data = Except.ok (p, peersEvents data) ∧
    countEv Event.isNewPeerSig (peersEvents data) = data.length ∧
    Peer._recv_Peers p [([[127], [0], [0], [1]], [118, 95], [97, 98, 99])] =
      Except.ok (p,
        [Event.logDebug "received peer address",
         Event.sigNewPeer "127.0.0.1" 30303 [97, 98, 99]]) :=
  ⟨recv_Peers_ok p data hwf, peersEvents_count data, rfl⟩

/-- C9 witness: the spec's concrete entry (bytes [127,0,0,1], bytes of
30303, node id "abc"). -/
theorem C9_peers_republish_witness :
    (∀ e ∈ ([([[127], [0], [0], [1]], [118, 95], [97, 98, 99])] :
        List (List Bytes × Bytes × Bytes)), ∀ b ∈ e.1, b.length ≤ 1) ∧
    (Peer._recv_Peers Peer.init
        [([[127], [0], [0], [1]], [118, 95], [97, 98, 99])] =
      Except.ok (Peer.init,
        peersEvents [([[127], [0], [0], [1]], [118, 95], [97, 98, 99])]) ∧
    countEv Event.isNewPeerSig
        (peersEvents [([[127], [0], [0], [1]], [118, 95], [97, 98, 99])]) =
      ([([[127], [0], [0], [1]], [118, 95], [97, 98, 99])] :
        List (List Bytes × Bytes × Bytes)).length ∧
    Peer._recv_Peers Peer.init
        [([[127], [0], [0], [1]], [118, 95], [97, 98, 99])] =
      Except.ok (Peer.init,
        [Event.logDebug "received peer address",
         Event.sigNewPeer "127.0.0.1" 30303 [97, 98, 99]])) :=
  ⟨by decide,
   C9_peers_republish Peer.init
     [([[127], [0], [0], [1]], [118, 95], [97, 98, 99])] (by decide)⟩

end PyEth
